import Mathlib

/-!
Shallow embedding of the rustnes 6502 CPU core (src/cpu.rs, src/opcodes.rs,
src/bus.rs).  Machine integers are modelled as `Nat` with explicit `% 256`
(u8) and `% 65536` (u16) where the Rust types truncate or wrap; fallible
operations (panics, `todo!`, `expect`) are modelled with `Except`/`Option`
or an explicit error constructor.
-/

/-- The eleven addressing modes (enum `AddressingMode` in cpu.rs). -/
inductive AddressingMode where
  | Immediate
  | ZeroPage
  | ZeroPage_X
  | ZeroPage_Y
  | Absolute
  | Absolute_X
  | Absolute_Y
  | Indirect_X
  | Indirect_Y
  | NoneAddressing
deriving DecidableEq, Repr

/-- CPU state (struct `CPU` in cpu.rs).  The bus is abstracted to the
`Mem` trait's view: a byte-valued function of 16-bit addresses, exactly the
interface the CPU core is written against. -/
structure CPU where
  register_a : Nat
  register_x : Nat
  register_y : Nat
  status : Nat
  stack_pointer : Nat
  program_counter : Nat
  mem : Nat → Nat

/-- Flag bit masks (the `bitflags!` block in cpu.rs). -/
def Flags.CARRY : Nat := 0x01

def Flags.ZERO : Nat := 0x02

def Flags.INTERRUPT : Nat := 0x04

def Flags.DECIMAL : Nat := 0x08

def Flags.BREAK : Nat := 0x10

def Flags.BREAKBIS : Nat := 0x20

def Flags.OVERFLOW : Nat := 0x40

def Flags.NEGATIVE : Nat := 0x80

/-- `bitflags` insert: `self.bits |= other.bits`. -/
def flag_insert (s f : Nat) : Nat := s ||| f

/-- `bitflags` remove: `self.bits &= !other.bits` (u8 complement). -/
def flag_remove (s f : Nat) : Nat := s &&& (0xFF ^^^ f)

/-- `bitflags` contains: `self.bits & other.bits == other.bits`. -/
def flag_contains (s f : Nat) : Bool := s &&& f == f

/-- `bitflags` set: insert when the condition holds, remove otherwise. -/
def flag_set (s f : Nat) (cond : Bool) : Nat :=
  if cond then flag_insert s f else flag_remove s f

/-- `mem_read` through the `Mem` trait: addresses are u16, bytes are u8;
the two mods model those types. -/
def CPU.mem_read (c : CPU) (addr : Nat) : Nat := c.mem (addr % 65536) % 256

/-- `mem_write` through the `Mem` trait. -/
def CPU.mem_write (c : CPU) (addr data : Nat) : CPU :=
  { c with mem := fun a => if a = addr % 65536 then data % 256 else c.mem a }

/-- `mem_read_u16`: `lo = read(pos); hi = read(pos + 1); (hi << 8) | lo`. -/
def CPU.mem_read_u16 (c : CPU) (pos : Nat) : Nat :=
  (c.mem_read (pos + 1) <<< 8) ||| c.mem_read pos

/-- `mem_write_u16`: low byte to `pos`, high byte to `pos + 1`. -/
def CPU.mem_write_u16 (c : CPU) (pos data : Nat) : CPU :=
  (c.mem_write pos (data &&& 0xFF)).mem_write (pos + 1) ((data >>> 8) % 256)

/-- `update_z_n_flags`: Z from result == 0, then N from result bit 7. -/
def update_z_n_flags (s result : Nat) : Nat :=
  let s := if result = 0 then flag_insert s Flags.ZERO else flag_remove s Flags.ZERO
  if result &&& 0x80 ≠ 0 then flag_insert s Flags.NEGATIVE else flag_remove s Flags.NEGATIVE

/-- `set_a`: write A, then update Z and N from the written value. -/
def set_a (c : CPU) (data : Nat) : CPU :=
  let c := { c with register_a := data }
  { c with status := update_z_n_flags c.status c.register_a }

/-- `add_to_a` (cpu.rs lines 164-191).  The overflow condition transcribes
the Rust expression `res ^ data & res ^ self.register_a ^ 0b10000000 != 0`,
in which `&` binds tighter than `^`. -/
def add_to_a (c : CPU) (data : Nat) : CPU :=
  let sum := c.register_a + data + (if flag_contains c.status Flags.CARRY then 1 else 0)
  let carry := sum > 0xFF
  let s := if carry then flag_insert c.status Flags.CARRY else flag_remove c.status Flags.CARRY
  let res := sum % 256
  let s :=
    if res ^^^ (data &&& res) ^^^ c.register_a ^^^ 0x80 ≠ 0 then flag_insert s Flags.OVERFLOW
    else flag_remove s Flags.OVERFLOW
  set_a { c with status := s } res

/-- `stack_pop`: increment SP (mod 256), read `0x0100 + SP`. -/
def stack_pop (c : CPU) : CPU × Nat :=
  let c := { c with stack_pointer := (c.stack_pointer + 1) % 256 }
  (c, c.mem_read (0x0100 + c.stack_pointer))

/-- `stack_push`: write at `0x0100 + SP`, then decrement SP (mod 256). -/
def stack_push (c : CPU) (data : Nat) : CPU :=
  let c := c.mem_write (0x0100 + c.stack_pointer) data
  { c with stack_pointer := (c.stack_pointer + 255) % 256 }

/-- `stack_push_u16`: high byte first, then low byte. -/
def stack_push_u16 (c : CPU) (data : Nat) : CPU :=
  let hi := (data >>> 8) % 256
  let lo := data &&& 0xFF
  stack_push (stack_push c hi) lo

/-- `stack_pop_u16`: low byte first, then high byte. -/
def stack_pop_u16 (c : CPU) : CPU × Nat :=
  let (c, lo) := stack_pop c
  let (c, hi) := stack_pop c
  (c, (hi <<< 8) ||| lo)

/-- `php` (cpu.rs lines 217-222): push P with BREAK and BREAKBIS inserted. -/
def php (c : CPU) : CPU :=
  let status_flags := flag_insert (flag_insert c.status Flags.BREAK) Flags.BREAKBIS
  stack_push c status_flags

/-- `pla`: pull a byte into A via `set_a`. -/
def pla (c : CPU) : CPU :=
  let (c, stack_data) := stack_pop c
  set_a c stack_data

/-- `plp` (cpu.rs lines 229-233): pull P, then remove BREAK and remove
BREAKBIS. -/
def plp (c : CPU) : CPU :=
  let (c, bits) := stack_pop c
  let c := { c with status := bits }
  { c with status := flag_remove (flag_remove c.status Flags.BREAK) Flags.BREAKBIS }

/-- `ror_acc` (cpu.rs lines 336-352).  The rotated value is computed into
`data` but the function ends without storing it anywhere. -/
def ror_acc (c : CPU) : CPU :=
  let data := c.register_a
  let carry_cond := data &&& 0x01 == 1
  let data := if flag_contains c.status Flags.CARRY then (data >>> 1) ||| 0x80 else data >>> 1
  let c := { c with status := flag_remove c.status Flags.CARRY }
  if carry_cond then { c with status := flag_insert c.status Flags.CARRY } else c

/-- The `0x9a` (TXS) dispatch arm (cpu.rs lines 705-708): copy X to SP and
then update Z and N from the new SP. -/
def txs (c : CPU) : CPU :=
  let c := { c with stack_pointer := c.register_x }
  { c with status := update_z_n_flags c.status c.stack_pointer }

/-- `get_absolute_address` (cpu.rs lines 100-150).  `none` models the
`panic!("mode is not supported")` arm hit by `Immediate` and
`NoneAddressing`. -/
def get_absolute_address (c : CPU) (mode : AddressingMode) (addr : Nat) : Option Nat :=
  match mode with
  | .ZeroPage => some (c.mem_read addr)
  | .Absolute => some (c.mem_read_u16 addr)
  | .ZeroPage_X =>
      let pos := c.mem_read addr
      some ((pos + c.register_x) % 256)
  | .ZeroPage_Y =>
      let pos := c.mem_read addr
      some ((pos + c.register_y) % 256)
  | .Absolute_X =>
      let base := c.mem_read_u16 addr
      some ((base + c.register_x) % 65536)
  | .Absolute_Y =>
      let base := c.mem_read_u16 addr
      some ((base + c.register_y) % 65536)
  | .Indirect_X =>
      let base := c.mem_read addr
      let ptr := (base + c.register_x) % 256
      let lo := c.mem_read ptr
      let hi := c.mem_read ((ptr + 1) % 256)
      some ((hi <<< 8) ||| lo)
  | .Indirect_Y =>
      let base := c.mem_read addr
      let lo := c.mem_read base
      let hi := c.mem_read ((base + 1) % 256)
      let deref_base := (hi <<< 8) ||| lo
      some ((deref_base + c.register_y) % 65536)
  | _ => none

/-- `get_operand_address`: `Immediate` is PC itself, everything else goes
through `get_absolute_address` at PC. -/
def get_operand_address (c : CPU) (mode : AddressingMode) : Option Nat :=
  match mode with
  | .Immediate => some c.program_counter
  | _ => get_absolute_address c mode c.program_counter

/-- The operand transformation in `sbc` (cpu.rs line 257):
`(data as i8).wrapping_neg().wrapping_sub(1) as u8`, on the byte level
`(-data - 1) mod 256`. -/
def sbc_operand (data : Nat) : Nat := ((256 - data) % 256 + 255) % 256

/-- `adc`: resolve the operand address, read it, feed it to `add_to_a`. -/
def adc (c : CPU) (mode : AddressingMode) : Option CPU :=
  (get_operand_address c mode).map fun address => add_to_a c (c.mem_read address)

/-- `sbc`: like `adc` but with the operand negated-minus-one. -/
def sbc (c : CPU) (mode : AddressingMode) : Option CPU :=
  (get_operand_address c mode).map fun address =>
    add_to_a c (sbc_operand (c.mem_read address))

/-- `cmp` (shared by CMP/CPX/CPY): C from `value <= comparing_value`, then
Z and N from the wrapping difference. -/
def cmp_op (c : CPU) (mode : AddressingMode) (comparing_value : Nat) : Option CPU :=
  (get_operand_address c mode).map fun address =>
    let value := c.mem_read address
    let c :=
      if value ≤ comparing_value then { c with status := flag_insert c.status Flags.CARRY }
      else { c with status := flag_remove c.status Flags.CARRY }
    { c with status := update_z_n_flags c.status ((comparing_value + 256 - value) % 256) }

/-- `and`. -/
def and_op (c : CPU) (mode : AddressingMode) : Option CPU :=
  (get_operand_address c mode).map fun address => set_a c (c.mem_read address &&& c.register_a)

/-- `bit`: Z from `A & M == 0`, N from M bit 7, V from M bit 6. -/
def bit (c : CPU) (mode : AddressingMode) : Option CPU :=
  (get_operand_address c mode).map fun address =>
    let data := c.mem_read address
    let c :=
      if c.register_a &&& data = 0 then { c with status := flag_insert c.status Flags.ZERO }
      else { c with status := flag_remove c.status Flags.ZERO }
    let c := { c with status := flag_set c.status Flags.NEGATIVE (data &&& 0x80 > 0) }
    { c with status := flag_set c.status Flags.OVERFLOW (data &&& 0x40 > 0) }

/-- `eor`. -/
def eor (c : CPU) (mode : AddressingMode) : Option CPU :=
  (get_operand_address c mode).map fun address => set_a c (c.mem_read address ^^^ c.register_a)

/-- `ora`. -/
def ora (c : CPU) (mode : AddressingMode) : Option CPU :=
  (get_operand_address c mode).map fun address => set_a c (c.mem_read address ||| c.register_a)

/-- `asl_acc`: C from bit 7, shift left (u8 wrap), store via `set_a`. -/
def asl_acc (c : CPU) : CPU :=
  let data := c.register_a
  let c :=
    if data >>> 7 = 1 then { c with status := flag_insert c.status Flags.CARRY }
    else { c with status := flag_remove c.status Flags.CARRY }
  set_a c ((data <<< 1) % 256)

/-- `lsr_acc`: C from bit 0, shift right, store via `set_a`. -/
def lsr_acc (c : CPU) : CPU :=
  let data := c.register_a
  let c :=
    if data &&& 0x01 = 1 then { c with status := flag_insert c.status Flags.CARRY }
    else { c with status := flag_remove c.status Flags.CARRY }
  set_a c (data >>> 1)

/-- `rol_acc`: new bit 0 from old C, C from old bit 7, store via `set_a`
(unlike `ror_acc`, this one does write the result back). -/
def rol_acc (c : CPU) : CPU :=
  let data := c.register_a
  let carry_cond := data >>> 7 == 1
  let data :=
    if flag_contains c.status Flags.CARRY then ((data <<< 1) % 256) ||| 0x01
    else (data <<< 1) % 256
  let c := { c with status := flag_remove c.status Flags.CARRY }
  let c := if carry_cond then { c with status := flag_insert c.status Flags.CARRY } else c
  set_a c data

/-- Memory-form `asl`: read, shift, write back, update Z and N. -/
def asl (c : CPU) (mode : AddressingMode) : Option CPU :=
  (get_operand_address c mode).map fun address =>
    let data := c.mem_read address
    let c :=
      if data >>> 7 = 1 then { c with status := flag_insert c.status Flags.CARRY }
      else { c with status := flag_remove c.status Flags.CARRY }
    let data := (data <<< 1) % 256
    let c := c.mem_write address data
    { c with status := update_z_n_flags c.status data }

/-- Memory-form `lsr`. -/
def lsr (c : CPU) (mode : AddressingMode) : Option CPU :=
  (get_operand_address c mode).map fun address =>
    let data := c.mem_read address
    let c :=
      if data &&& 0x01 = 1 then { c with status := flag_insert c.status Flags.CARRY }
      else { c with status := flag_remove c.status Flags.CARRY }
    let data := data >>> 1
    let c := c.mem_write address data
    { c with status := update_z_n_flags c.status data }

/-- Memory-form `rol`. -/
def rol (c : CPU) (mode : AddressingMode) : Option CPU :=
  (get_operand_address c mode).map fun address =>
    let data := c.mem_read address
    let carry_cond := data >>> 7 == 1
    let data :=
      if flag_contains c.status Flags.CARRY then ((data <<< 1) % 256) ||| 0x01
      else (data <<< 1) % 256
    let c := { c with status := flag_remove c.status Flags.CARRY }
    let c := if carry_cond then { c with status := flag_insert c.status Flags.CARRY } else c
    let c := c.mem_write address data
    { c with status := update_z_n_flags c.status data }

/-- Memory-form `ror` (this one, unlike `ror_acc`, writes the result). -/
def ror (c : CPU) (mode : AddressingMode) : Option CPU :=
  (get_operand_address c mode).map fun address =>
    let data := c.mem_read address
    let carry_cond := data &&& 0x01 == 1
    let data :=
      if flag_contains c.status Flags.CARRY then (data >>> 1) ||| 0x80 else data >>> 1
    let c := { c with status := flag_remove c.status Flags.CARRY }
    let c := if carry_cond then { c with status := flag_insert c.status Flags.CARRY } else c
    let c := c.mem_write address data
    { c with status := update_z_n_flags c.status data }

/-- `lda`. -/
def lda (c : CPU) (mode : AddressingMode) : Option CPU :=
  (get_operand_address c mode).map fun address => set_a c (c.mem_read address)

/-- `ldx`. -/
def ldx (c : CPU) (mode : AddressingMode) : Option CPU :=
  (get_operand_address c mode).map fun address =>
    let c := { c with register_x := c.mem_read address }
    { c with status := update_z_n_flags c.status c.register_x }

/-- `ldy`. -/
def ldy (c : CPU) (mode : AddressingMode) : Option CPU :=
  (get_operand_address c mode).map fun address =>
    let c := { c with register_y := c.mem_read address }
    { c with status := update_z_n_flags c.status c.register_y }

/-- `sta`. -/
def sta (c : CPU) (mode : AddressingMode) : Option CPU :=
  (get_operand_address c mode).map fun address => c.mem_write address c.register_a

/-- `stx`. -/
def stx (c : CPU) (mode : AddressingMode) : Option CPU :=
  (get_operand_address c mode).map fun address => c.mem_write address c.register_x

/-- `sty`. -/
def sty (c : CPU) (mode : AddressingMode) : Option CPU :=
  (get_operand_address c mode).map fun address => c.mem_write address c.register_y

/-- `dec`. -/
def dec (c : CPU) (mode : AddressingMode) : Option CPU :=
  (get_operand_address c mode).map fun address =>
    let data := (c.mem_read address + 255) % 256
    let c := c.mem_write address data
    { c with status := update_z_n_flags c.status data }

/-- `inc`. -/
def inc (c : CPU) (mode : AddressingMode) : Option CPU :=
  (get_operand_address c mode).map fun address =>
    let data := (c.mem_read address + 1) % 256
    let c := c.mem_write address data
    { c with status := update_z_n_flags c.status data }

/-- `dex`. -/
def dex (c : CPU) : CPU :=
  let c := { c with register_x := (c.register_x + 255) % 256 }
  { c with status := update_z_n_flags c.status c.register_x }

/-- `dey`. -/
def dey (c : CPU) : CPU :=
  let c := { c with register_y := (c.register_y + 255) % 256 }
  { c with status := update_z_n_flags c.status c.register_y }

/-- `inx`. -/
def inx (c : CPU) : CPU :=
  let c := { c with register_x := (c.register_x + 1) % 256 }
  { c with status := update_z_n_flags c.status c.register_x }

/-- `iny`. -/
def iny (c : CPU) : CPU :=
  let c := { c with register_y := (c.register_y + 1) % 256 }
  { c with status := update_z_n_flags c.status c.register_y }

/-- `curr_at_counter as i8 as u16`: sign-extend a byte to 16 bits. -/
def sign_extend_i8 (o : Nat) : Nat := if o < 128 then o else 0xFF00 + o

/-- `b` (the shared branch helper, cpu.rs lines 517-524): when the
condition holds, read the signed offset at PC and set
`PC ← PC.wrapping_add(1).wrapping_add(offset)`. -/
def b (c : CPU) (cond : Bool) : CPU :=
  if cond then
    let curr_at_counter := c.mem_read c.program_counter
    let address := ((c.program_counter + 1) % 65536 + sign_extend_i8 curr_at_counter) % 65536
    { c with program_counter := address }
  else c

/-- The indirect-JMP target resolution inlined in the `0x6c` arm
(cpu.rs lines 736-747), with the 6502 page-wrap: when the pointer's low
byte is 0xFF the high byte comes from `ptr & 0xFF00`, not `ptr + 1`. -/
def jmp_indirect_ref (c : CPU) (mem_address : Nat) : Nat :=
  if mem_address &&& 0x00FF = 0x00FF then
    let lo := c.mem_read mem_address
    let hi := c.mem_read (mem_address &&& 0xFF00)
    (hi <<< 8) ||| lo
  else c.mem_read_u16 mem_address

/-- Opcode record (struct `OpCode` in opcodes.rs). -/
structure OpCode where
  code : Nat
  mnemonic : String
  len : Nat
  cycles : Nat
  mode : AddressingMode
deriving DecidableEq, Repr

/-- The `OPS_CODES` table (opcodes.rs lines 25-93), transcribed entry by
entry. -/
def ops_codes : List OpCode := [
  ⟨0x00, "BRK", 1, 7, .NoneAddressing⟩,
  ⟨0xaa, "TAX", 1, 2, .NoneAddressing⟩,
  ⟨0xe8, "INX", 1, 2, .NoneAddressing⟩,
  ⟨0x69, "ADC", 2, 2, .Immediate⟩,
  ⟨0x65, "ADC", 2, 3, .ZeroPage⟩,
  ⟨0x75, "ADC", 2, 4, .ZeroPage_X⟩,
  ⟨0x6D, "ADC", 3, 4, .Absolute⟩,
  ⟨0x7D, "ADC", 3, 4, .Absolute_X⟩,
  ⟨0x79, "ADC", 3, 4, .Absolute_Y⟩,
  ⟨0x61, "ADC", 2, 6, .Indirect_X⟩,
  ⟨0x71, "ADC", 2, 5, .Indirect_Y⟩,
  ⟨0x29, "AND", 2, 2, .Immediate⟩,
  ⟨0x25, "AND", 2, 3, .ZeroPage⟩,
  ⟨0x35, "AND", 2, 4, .ZeroPage_X⟩,
  ⟨0x2d, "AND", 2, 4, .Absolute⟩,
  ⟨0x3d, "AND", 3, 4, .Absolute_X⟩,
  ⟨0x39, "AND", 3, 4, .Absolute_Y⟩,
  ⟨0x21, "AND", 2, 6, .Indirect_X⟩,
  ⟨0x31, "AND", 2, 5, .Indirect_Y⟩,
  ⟨0x0a, "ASL", 1, 2, .NoneAddressing⟩,
  ⟨0x06, "ASL", 2, 5, .ZeroPage⟩,
  ⟨0x16, "ASL", 2, 6, .ZeroPage_X⟩,
  ⟨0x0e, "ASL", 3, 6, .Absolute⟩,
  ⟨0x1e, "ASL", 3, 7, .Absolute_X⟩,
  ⟨0x90, "BCC", 2, 2, .NoneAddressing⟩,
  ⟨0xb0, "BCS", 2, 2, .NoneAddressing⟩,
  ⟨0xf0, "BEQ", 2, 2, .NoneAddressing⟩,
  ⟨0x24, "BIT", 2, 3, .ZeroPage⟩,
  ⟨0x2c, "BIT", 3, 4, .Absolute⟩,
  ⟨0x30, "BMI", 2, 2, .NoneAddressing⟩,
  ⟨0xd0, "BNE", 2, 2, .NoneAddressing⟩,
  ⟨0x10, "BPL", 2, 2, .NoneAddressing⟩,
  ⟨0x50, "BVC", 2, 2, .NoneAddressing⟩,
  ⟨0x70, "BVS", 2, 2, .NoneAddressing⟩,
  ⟨0xa9, "LDA", 2, 2, .Immediate⟩,
  ⟨0xa5, "LDA", 2, 3, .ZeroPage⟩,
  ⟨0xb5, "LDA", 2, 4, .ZeroPage_X⟩,
  ⟨0xad, "LDA", 3, 4, .Absolute⟩,
  ⟨0xbd, "LDA", 3, 4, .Absolute_X⟩,
  ⟨0xb9, "LDA", 3, 4, .Absolute_Y⟩,
  ⟨0xa1, "LDA", 2, 6, .Indirect_X⟩,
  ⟨0xb1, "LDA", 2, 5, .Indirect_Y⟩,
  ⟨0x85, "STA", 2, 3, .ZeroPage⟩,
  ⟨0x95, "STA", 2, 4, .ZeroPage_X⟩,
  ⟨0x8d, "STA", 3, 4, .Absolute⟩,
  ⟨0x9d, "STA", 3, 5, .Absolute_X⟩,
  ⟨0x99, "STA", 3, 5, .Absolute_Y⟩,
  ⟨0x81, "STA", 2, 6, .Indirect_X⟩,
  ⟨0x91, "STA", 2, 6, .Indirect_Y⟩]

/-- `OPCODES_MAP`: lookup by opcode byte (the codes in `OPS_CODES` are
pairwise distinct, so `find?` agrees with the HashMap). -/
def opcodes_map (code : Nat) : Option OpCode :=
  ops_codes.find? fun op => op.code == code

/-- Result of one trip through the interpreter loop: `halt` is the `0x00`
arm's `return`, `next` continues, `err` models a panic (`expect` on a
missing opcode, `panic!` on an unsupported mode, `todo!()` on an arm the
source has not written). -/
inductive Outcome where
  | halt
  | next (c : CPU)
  | err (msg : String)

/-- Lift the `Option` of an addressed operation into an `Outcome`. -/
def lift_opt : Option CPU → Outcome
  | some c => .next c
  | none => .err "mode is not supported"

/-- The dispatch `match` of `run_with_callback` (cpu.rs lines 566-841),
arm for arm, including the arms for opcodes that `OPCODES_MAP` does not
contain (they are unreachable through `step`, which fails at lookup
first). -/
def execute (code : Nat) (mode : AddressingMode) (c : CPU) : Outcome :=
  match code with
  | 0x69 | 0x65 | 0x75 | 0x6D | 0x7D | 0x79 | 0x61 | 0x71 => lift_opt (adc c mode)
  | 0xc9 | 0xcd | 0xdd | 0xd9 | 0xc5 | 0xd5 | 0xc1 | 0xd1 => lift_opt (cmp_op c mode c.register_a)
  | 0xe0 | 0xec | 0xe4 => lift_opt (cmp_op c mode c.register_x)
  | 0xc0 | 0xcc | 0xc4 => lift_opt (cmp_op c mode c.register_y)
  | 0xe9 | 0xed | 0xfd | 0xf9 | 0xe5 | 0xf5 | 0xe1 | 0xf1 => lift_opt (sbc c mode)
  | 0x48 => .next (stack_push c c.register_a)
  | 0x08 => .next (php c)
  | 0x68 => .next (pla c)
  | 0x28 => .next (plp c)
  | 0x29 | 0x25 | 0x35 | 0x2d | 0x3d | 0x39 | 0x21 | 0x31 => lift_opt (and_op c mode)
  | 0x24 | 0x2c => lift_opt (bit c mode)
  | 0x49 | 0x4d | 0x5d | 0x59 | 0x45 | 0x55 | 0x41 | 0x51 => lift_opt (eor c mode)
  | 0x09 | 0x0d | 0x1d | 0x19 | 0x05 | 0x15 | 0x01 | 0x11 => lift_opt (ora c mode)
  | 0x0a => .next (asl_acc c)
  | 0x4a => .next (lsr_acc c)
  | 0x2a => .next (rol_acc c)
  | 0x6a => .next (ror_acc c)
  | 0x06 | 0x16 | 0x0e | 0x1e => lift_opt (asl c mode)
  | 0x4e | 0x5e | 0x46 | 0x56 => lift_opt (lsr c mode)
  | 0x2e | 0x3e | 0x26 | 0x36 => lift_opt (rol c mode)
  | 0x6e | 0x7e | 0x66 | 0x76 => lift_opt (ror c mode)
  | 0xa9 | 0xa5 | 0xb5 | 0xad | 0xbd | 0xb9 | 0xa1 | 0xb1 => lift_opt (lda c mode)
  | 0xa2 | 0xae | 0xbe | 0xa6 | 0xb6 => lift_opt (ldx c mode)
  | 0xa0 | 0xac | 0xbc | 0xa4 | 0xb4 => lift_opt (ldy c mode)
  | 0x85 | 0x95 | 0x8d | 0x9d | 0x99 | 0x81 | 0x91 => lift_opt (sta c mode)
  | 0x8e | 0x86 | 0x96 => lift_opt (stx c mode)
  | 0x8c | 0x84 | 0x94 => lift_opt (sty c mode)
  | 0x90 => .next (b c (!flag_contains c.status Flags.CARRY))
  | 0xb0 => .next (b c (flag_contains c.status Flags.CARRY))
  | 0xf0 => .next (b c (flag_contains c.status Flags.ZERO))
  | 0x30 => .next (b c (flag_contains c.status Flags.NEGATIVE))
  | 0xd0 => .next (b c (!flag_contains c.status Flags.ZERO))
  | 0x10 => .next (b c (!flag_contains c.status Flags.NEGATIVE))
  | 0x50 => .next (b c (!flag_contains c.status Flags.OVERFLOW))
  | 0x70 => .next (b c (flag_contains c.status Flags.OVERFLOW))
  | 0x18 => .next { c with status := flag_remove c.status Flags.CARRY }
  | 0xd8 => .next { c with status := flag_remove c.status Flags.DECIMAL }
  | 0x58 => .next { c with status := flag_remove c.status Flags.INTERRUPT }
  | 0xb8 => .next { c with status := flag_remove c.status Flags.OVERFLOW }
  | 0x38 => .next { c with status := flag_insert c.status Flags.CARRY }
  | 0xf8 => .next { c with status := flag_insert c.status Flags.DECIMAL }
  | 0x78 => .next { c with status := flag_insert c.status Flags.INTERRUPT }
  | 0xaa =>
      let c := { c with register_x := c.register_a }
      .next { c with status := update_z_n_flags c.status c.register_x }
  | 0xa8 =>
      let c := { c with register_y := c.register_a }
      .next { c with status := update_z_n_flags c.status c.register_y }
  | 0xba =>
      let c := { c with register_x := c.stack_pointer }
      .next { c with status := update_z_n_flags c.status c.register_x }
  | 0x8a => .next (set_a c c.register_x)
  | 0x9a => .next (txs c)
  | 0x98 => .next (set_a c c.register_y)
  | 0xce | 0xde | 0xc6 | 0xd6 => lift_opt (dec c mode)
  | 0xee | 0xfe | 0xe6 | 0xf6 => lift_opt (inc c mode)
  | 0xca => .next (dex c)
  | 0x88 => .next (dey c)
  | 0xe8 => .next (inx c)
  | 0xc8 => .next (iny c)
  | 0x4c =>
      let mem_address := c.mem_read_u16 c.program_counter
      .next { c with program_counter := mem_address }
  | 0x6c =>
      let mem_address := c.mem_read_u16 c.program_counter
      let reference := jmp_indirect_ref c mem_address
      .next { c with program_counter := reference }
  | 0x20 =>
      let c := stack_push_u16 c ((c.program_counter + 2 - 1) % 65536)
      let target := c.mem_read_u16 c.program_counter
      .next { c with program_counter := target }
  | 0x40 =>
      let (c, bits) := stack_pop c
      let c := { c with status := bits }
      let c := { c with status := flag_remove c.status Flags.BREAK }
      let c := { c with status := flag_insert c.status Flags.BREAKBIS }
      let (c, pc) := stack_pop_u16 c
      .next { c with program_counter := pc }
  | 0x60 =>
      let (c, pc) := stack_pop_u16 c
      .next { c with program_counter := (pc + 1) % 65536 }
  | 0xea => .next c
  | 0x00 => .halt
  | _ => .err "todo"

/-- One trip of the `run_with_callback` loop (cpu.rs lines 559-848): fetch,
advance PC, save PC, table lookup (the `expect` fails before any dispatch
when the byte is absent), dispatch, and the post-dispatch PC bump guarded
by `program_counter_state == self.program_counter`. -/
def step (c : CPU) : Outcome :=
  let code := c.mem_read c.program_counter
  let c := { c with program_counter := (c.program_counter + 1) % 65536 }
  let program_counter_state := c.program_counter
  match opcodes_map code with
  | none => .err "OpCode is not recognized"
  | some opcode =>
    match execute code opcode.mode c with
    | .halt => .halt
    | .err msg => .err msg
    | .next c =>
        .next (if program_counter_state = c.program_counter then
                 { c with program_counter := (c.program_counter + (opcode.len - 1)) % 65536 }
               else c)

/-- The program counter after one step, when the step neither halts nor
fails. -/
def step_pc (c : CPU) : Option Nat :=
  match step c with
  | .next c => some c.program_counter
  | _ => none

/-- `CPU::new` with an all-zero memory: registers 0, status
`from_bits_truncate(0b100100)`, SP `0xfd`, PC 0. -/
def cpu0 : CPU :=
  { register_a := 0, register_x := 0, register_y := 0, status := 0b100100,
    stack_pointer := 0xFD, program_counter := 0, mem := fun _ => 0 }

/-- **C1.** At A = 0, M = 0, C = 0 the code's ADC core sets the OVERFLOW
flag (its condition is `res ^ (data & res) ^ A ^ 0x80 != 0` by Rust
precedence), while the formula claimed for V, `((a ^ result) & (m ^ result)
& 0x80) != 0`, evaluates to 0 there.  The A, C, Z and N parts of the claim
do hold at this input. -/
theorem adc_overflow_formula_diverges :
    (add_to_a cpu0 0).register_a = 0 ∧
    (add_to_a cpu0 0).status &&& Flags.CARRY = 0 ∧
    (add_to_a cpu0 0).status &&& Flags.ZERO = Flags.ZERO ∧
    (add_to_a cpu0 0).status &&& Flags.NEGATIVE = 0 ∧
    (add_to_a cpu0 0).status &&& Flags.OVERFLOW = Flags.OVERFLOW ∧
    ((0 ^^^ 0) &&& (0 ^^^ 0) &&& 0x80) = 0 := by decide

/-- **C2.** Starting from P = 0x24 (I and U set), `php` followed by `plp`
yields P = 0x04: `plp` removes BREAKBIS, so the in-CPU U bit ends 0, while
the claim (P restored except B ← 0, U ← 1) expects P = 0x24. -/
theorem php_plp_forces_u_clear :
    (plp (php cpu0)).status = 0x04 ∧
    ((cpu0.status &&& 0xEF) ||| 0x20) = 0x24 ∧
    ¬ (plp (php cpu0)).status = 0x24 := by decide

/-- Accumulator 0x02, carry clear: input on which `ror_acc` discards its
result. -/
def cpu_ror : CPU := { cpu0 with register_a := 0x02 }

/-- **C3.** With A = 0x02 and C = 0, the rotated value `(a >> 1) | (c << 7)`
is 0x01, and `ror_acc` does set C to old bit 0 (= 0), but it leaves
A = 0x02: the rotated value is computed and discarded, never written back. -/
theorem ror_acc_result_discarded :
    (ror_acc cpu_ror).register_a = 0x02 ∧
    ((0x02 >>> 1) ||| (0 <<< 7)) = 0x01 ∧
    (ror_acc cpu_ror).status &&& Flags.CARRY = 0 ∧
    ¬ (ror_acc cpu_ror).register_a = 0x01 := by decide

/-- **C4.** With X = 0 and P = 0x24, the `0x9a` arm copies X to SP but then
calls `update_z_n_flags` on the new SP, setting Z: P becomes 0x26 ≠ 0x24,
so the status register is not left unchanged. -/
theorem txs_updates_z_n_flags :
    (txs cpu0).stack_pointer = 0 ∧
    cpu0.status = 0x24 ∧
    (txs cpu0).status = 0x26 ∧
    ¬ (txs cpu0).status = cpu0.status := by decide

set_option maxRecDepth 8192 in
/-- **C7.** `sbc` is `adc` on the bitwise-inverted operand: the byte-level
transformation `(-m - 1) mod 256` equals `m XOR 0xFF`, and both `sbc` and
`adc` funnel into the same `add_to_a`, so A and all of C, V, Z, N come out
identical. -/
theorem sbc_matches_adc_with_inverted_operand :
    (∀ d : Nat, sbc_operand (d % 256) = (d % 256) ^^^ 0xFF) ∧
    (∀ (c : CPU) (mode : AddressingMode),
      sbc c mode = (get_operand_address c mode).map fun address =>
        add_to_a c (c.mem_read address ^^^ 0xFF)) ∧
    (∀ (c : CPU) (mode : AddressingMode),
      adc c mode = (get_operand_address c mode).map fun address =>
        add_to_a c (c.mem_read address)) := by
  have hball : ∀ n, n < 256 → sbc_operand n = n ^^^ 0xFF := by decide
  refine ⟨fun d => hball _ (Nat.mod_lt d (by decide)), fun c mode => ?_, fun c mode => rfl⟩
  unfold sbc
  cases get_operand_address c mode with
  | none => rfl
  | some address =>
      show some (add_to_a c (sbc_operand (c.mem_read address))) =
        some (add_to_a c (c.mem_read address ^^^ 0xFF))
      rw [show c.mem_read address = c.mem (address % 65536) % 256 from rfl,
        hball _ (Nat.mod_lt _ (by decide))]

/-- **C8.** Effective-address resolution for `(Indirect,X)` and
`(Indirect),Y` reads the pointer's high byte from `(p + 1) mod 256`
(zero-page wrap), and the indirect-JMP resolution with a pointer whose low
byte is 0xFF reads the target's high byte from `ptr & 0xFF00` rather than
`ptr + 1`. -/
theorem indirect_high_byte_wraps :
    (∀ (c : CPU) (addr : Nat),
      get_absolute_address c .Indirect_X addr =
        some ((c.mem_read (((c.mem_read addr + c.register_x) % 256 + 1) % 256) <<< 8) |||
              c.mem_read ((c.mem_read addr + c.register_x) % 256))) ∧
    (∀ (c : CPU) (addr : Nat),
      get_absolute_address c .Indirect_Y addr =
        some ((((c.mem_read ((c.mem_read addr + 1) % 256) <<< 8) |||
                c.mem_read (c.mem_read addr)) + c.register_y) % 65536)) ∧
    (∀ (c : CPU) (ptr : Nat), ptr &&& 0x00FF = 0x00FF →
      jmp_indirect_ref c ptr = (c.mem_read (ptr &&& 0xFF00) <<< 8) ||| c.mem_read ptr) := by
  refine ⟨fun c addr => rfl, fun c addr => rfl, fun c ptr h => ?_⟩
  unfold jmp_indirect_ref
  rw [if_pos h]

/-- Witness for C8: the page-wrap branch at the concrete pointer 0x02FF. -/
theorem indirect_high_byte_wraps_witness :
    0x02FF &&& 0x00FF = 0x00FF ∧
    jmp_indirect_ref cpu0 0x02FF =
      (cpu0.mem_read (0x02FF &&& 0xFF00) <<< 8) ||| cpu0.mem_read 0x02FF :=
  ⟨by decide, indirect_high_byte_wraps.2.2 cpu0 0x02FF (by decide)⟩

/-- **C9.** The opcode table misses SBC 0xE9, CMP 0xC9, DEX 0xCA, STX 0x8E,
JMP 0x4C, JSR 0x20 and RTS 0x60; every table entry's mnemonic is one of
BRK, TAX, INX, ADC, AND, ASL, the eight branches, BIT, LDA, STA; the
dispatcher does have an arm for 0xE9 (it runs `sbc`, not the `todo` arm);
and whenever the fetched byte is absent from the table, `step` fails at the
lookup, before any dispatch. -/
theorem absent_opcodes_fail_before_dispatch :
    (opcodes_map 0xE9 = none ∧ opcodes_map 0xC9 = none ∧ opcodes_map 0xCA = none ∧
     opcodes_map 0x8E = none ∧ opcodes_map 0x4C = none ∧ opcodes_map 0x20 = none ∧
     opcodes_map 0x60 = none) ∧
    (∀ op ∈ ops_codes,
      op.mnemonic ∈ ["BRK", "TAX", "INX", "ADC", "AND", "ASL", "BCC", "BCS", "BEQ",
        "BMI", "BNE", "BPL", "BVC", "BVS", "BIT", "LDA", "STA"]) ∧
    execute 0xE9 AddressingMode.Immediate cpu0 = lift_opt (sbc cpu0 AddressingMode.Immediate) ∧
    (∀ c : CPU, opcodes_map (c.mem_read c.program_counter) = none →
      step c = Outcome.err "OpCode is not recognized") := by
  refine ⟨by decide, by decide, rfl, fun c h => ?_⟩
  simp only [step, h]

/-- A CPU about to fetch the out-of-table byte 0xE9 (SBC immediate). -/
def cpu_e9 : CPU :=
  { register_a := 0, register_x := 0, register_y := 0, status := 0x24,
    stack_pointer := 0xFD, program_counter := 0x0600,
    mem := fun a => if a = 0x0600 then 0xE9 else 0 }

/-- Witness for C9: fetching 0xE9 makes the step fail at the table lookup. -/
theorem absent_opcodes_fail_before_dispatch_witness :
    opcodes_map (cpu_e9.mem_read cpu_e9.program_counter) = none ∧
    step cpu_e9 = Outcome.err "OpCode is not recognized" :=
  ⟨by decide, absent_opcodes_fail_before_dispatch.2.2.2 cpu_e9 (by decide)⟩

/-- A CPU whose next instruction is BCS with offset byte 0xFF (-1) and
whose carry flag is set: the branch is taken and its destination is
exactly the PC value saved after the opcode fetch. -/
def cpu_bcs_minus_one : CPU :=
  { register_a := 0, register_x := 0, register_y := 0, status := 0x25,
    stack_pointer := 0xFD, program_counter := 0x0600,
    mem := fun a => if a = 0x0600 then 0xB0 else if a = 0x0601 then 0xFF else 0 }

/-- **C5 counterexample.** The taken BCS at 0x0600 with offset -1 sets
PC to its destination 0x0601 — the PC value saved after the opcode fetch —
so the value comparison in the loop sees an "unchanged" PC and applies the
bump anyway: the step ends at 0x0602, not at the branch destination 0x0601
the claim requires for every taken branch. -/
theorem bcs_offset_minus_one_gets_bump :
    step_pc cpu_bcs_minus_one = some 0x0602 ∧
    ¬ step_pc cpu_bcs_minus_one = some 0x0601 := by decide

/-- **C5 (amended).** For a BCS instruction at any PC (away from the
address-space edge), the loop applies the post-dispatch bump exactly when
the PC value after dispatch equals the PC saved after the opcode fetch:
a not-taken branch ends at PC+2; a taken branch ends at its destination
`PC + 2 + sign_extend(offset) (mod 2^16)` — except that with offset 0xFF
(-1) the destination coincides with the saved PC, so the bump is applied
on top of the taken branch and the step ends at PC+2. -/
theorem bump_iff_pc_value_unchanged_bcs (c : CPU)
    (hpc : c.program_counter + 2 < 65536)
    (hcode : c.mem c.program_counter = 0xB0) :
    step_pc c = some (
      if flag_contains c.status Flags.CARRY then
        if c.mem (c.program_counter + 1) % 256 = 0xFF then c.program_counter + 2
        else (c.program_counter + 2 +
          sign_extend_i8 (c.mem (c.program_counter + 1) % 256)) % 65536
      else c.program_counter + 2) := by
  have hpcmod : c.program_counter % 65536 = c.program_counter := Nat.mod_eq_of_lt (by omega)
  have hpc1 : (c.program_counter + 1) % 65536 = c.program_counter + 1 :=
    Nat.mod_eq_of_lt (by omega)
  have hpc2 : (c.program_counter + 2) % 65536 = c.program_counter + 2 :=
    Nat.mod_eq_of_lt (by omega)
  have hexec : ∀ (m : AddressingMode) (c' : CPU),
      execute 0xB0 m c' = Outcome.next (b c' (flag_contains c'.status Flags.CARRY)) :=
    fun m c' => rfl
  have hmap : opcodes_map 0xB0 = some ⟨0xB0, "BCS", 2, 2, AddressingMode.NoneAddressing⟩ := by
    decide
  have hcode' : c.mem_read c.program_counter = 0xB0 := by
    unfold CPU.mem_read; rw [hpcmod, hcode]
  have ho : c.mem (c.program_counter + 1) % 256 < 256 := Nat.mod_lt _ (by decide)
  simp only [step_pc, step, hcode', hmap, hexec]
  cases hcar : flag_contains c.status Flags.CARRY with
  | false =>
      simp [b, hpc1, hpc2]
  | true =>
      simp only [b, CPU.mem_read, sign_extend_i8, hpcmod, hpc1, hpc2]
      simp [hpc1, hpc2, apply_ite CPU.program_counter]
      split_ifs <;> omega

/-- Witness for the amended C5 rule at the concrete offset -1 BCS state. -/
theorem bump_iff_pc_value_unchanged_bcs_witness :
    cpu_bcs_minus_one.program_counter + 2 < 65536 ∧
    cpu_bcs_minus_one.mem cpu_bcs_minus_one.program_counter = 0xB0 ∧
    step_pc cpu_bcs_minus_one = some (
      if flag_contains cpu_bcs_minus_one.status Flags.CARRY then
        if cpu_bcs_minus_one.mem (cpu_bcs_minus_one.program_counter + 1) % 256 = 0xFF then
          cpu_bcs_minus_one.program_counter + 2
        else (cpu_bcs_minus_one.program_counter + 2 +
          sign_extend_i8
            (cpu_bcs_minus_one.mem (cpu_bcs_minus_one.program_counter + 1) % 256)) % 65536
      else cpu_bcs_minus_one.program_counter + 2) :=
  ⟨by decide, by decide,
    bump_iff_pc_value_unchanged_bcs cpu_bcs_minus_one (by decide) (by decide)⟩

/-- Bus state (struct `Bus` in bus.rs): 2 KiB of VRAM and the cartridge
PRG-ROM bytes. -/
structure Bus where
  cpu_vram : Nat → Nat
  prg_rom : List Nat

/-- `Bus::mem_write` (bus.rs lines 53-73): RAM writes land in VRAM through
the mirror mask, PPU-register writes hit `todo!("Impl PPU")`, writes into
`0x8000..=0xFFFF` hit `panic!("Do not write on ROM space !!")`, anything
else is ignored.  Errors model the panics. -/
def bus_mem_write (bus : Bus) (address data : Nat) : Except String Bus :=
  let address := address % 65536
  if address ≤ 0x1FFF then
    .ok { bus with
      cpu_vram := fun a => if a = (address &&& 0b0000011111111111) then data % 256
                           else bus.cpu_vram a }
  else if address ≤ 0x3FFF then
    .error "Impl PPU"
  else if 0x8000 ≤ address then
    .error "Do not write on ROM space !!"
  else
    .ok bus

/-- The `Mem` trait's default `mem_write_u16`, as the CPU's `load` reaches
the bus: low byte to `pos`, then high byte to `pos + 1`. -/
def bus_mem_write_u16 (bus : Bus) (pos data : Nat) : Except String Bus := do
  let bus ← bus_mem_write bus pos (data &&& 0xFF)
  bus_mem_write bus (pos + 1) ((data >>> 8) % 256)

/-- `CPU::load` (cpu.rs lines 532-537) against the concrete bus: copy the
program to `0x0600 + i` for `i` in `0..(len as u16)`, then write `0x0600`
to the reset vector `0xFFFC`. -/
def load (bus : Bus) (program : List Nat) : Except String Bus := do
  let bus ← (List.range (program.length % 65536)).foldlM
    (fun bus i => bus_mem_write bus ((0x0600 + i) % 65536) (program.getD i 0)) bus
  bus_mem_write_u16 bus 0xFFFC 0x0600

/-- `Bus::new` with an empty cartridge: zeroed VRAM. -/
def bus0 : Bus := { cpu_vram := fun _ => 0, prg_rom := [] }

/-- **C6.** Against this bus, `load` of the one-byte program `[0x00]`
copies the byte into RAM at 0x0600 (that write succeeds) but then dies
writing the reset vector: address 0xFFFC falls in the bus's
`0x8000..=0xFFFF` write arm, which panics, so `load` never completes and
`reset` can never pick the origin up from 0xFFFC. -/
theorem load_rejects_reset_vector_write :
    (bus_mem_write bus0 ((0x0600 + 0) % 65536) 0x00).isOk = true ∧
    load bus0 [0x00] = Except.error "Do not write on ROM space !!" :=
  ⟨rfl, rfl⟩

/-- **C10.** For every program and every bus state, `load` fails: either
the copy loop itself panics (PPU region / ROM region for oversized
programs), or the copy succeeds and the reset-vector write at 0xFFFC is
rejected by the ROM-region arm.  Hence `load` (and with it `load_and_run`)
never completes against this bus. -/
theorem load_never_completes (program : List Nat) (bus : Bus) :
    ∃ e, load bus program = Except.error e := by
  unfold load
  cases h : (List.range (program.length % 65536)).foldlM
      (fun bus i => bus_mem_write bus ((0x0600 + i) % 65536) (program.getD i 0)) bus with
  | error e => exact ⟨e, rfl⟩
  | ok bus' => exact ⟨"Do not write on ROM space !!", rfl⟩
